import Mathlib

/-
Verification of the ElasticBatch buffering layer: a shallow embedding of
elasticbatch/buffer.py, elasticbatch/exceptions.py and elasticbatch/types.py.

Modelling conventions:
  * Python floats are modelled as rationals.
  * A document (Python dict) is an insertion-ordered association list from
    string field names to opaque values of a type parameter V.
  * The external bulk-insert transport (elasticsearch.helpers.bulk) is
    modelled at its interface boundary by a BulkOutcome value: either a
    raised transport fault or a pair of a success count and a list of
    per-document error descriptors (each descriptor kept as its rendered
    text, since descriptors are opaque to the buffer).
  * Methods that may raise are embedded as functions returning a result
    record carrying the new state, the raised error if any, and counters
    for flush invocations and transport calls.
-/

section ElasticBatchModel

variable {V : Type}

/-- Document: python dict as insertion-ordered association list. -/
abbrev Doc (V : Type) := List (String × V)

/-- Python value used as a timestamp: numeric (float, modelled as a
rational) or some non-numeric object identified by a tag. -/
inductive PyTime where
  | num (q : ℚ)
  | obj (tag : String)
deriving DecidableEq, Repr

/-- Python subtraction on timestamp values: defined for numerics, raises
TypeError (modelled as none) otherwise. -/
def pySub : PyTime → PyTime → Option ℚ
  | PyTime.num a, PyTime.num b => some (a - b)
  | _, _ => none

/-- Rendering of a Python list of (opaque, pre-rendered) error descriptors,
as produced by an f-string interpolation of the list. -/
def pyListStr (xs : List String) : String :=
  "[" ++ String.intercalate ", " xs ++ "]"

/-- Root cause stored in ElasticBufferFlushError.err: absent, a free-form
string, a list of error descriptors, or an exception object carrying an
optional defining module, a class name and its rendered text. -/
inductive ErrCause where
  | nil
  | str (text : String)
  | list (descriptors : List String)
  | exc (module : Option String) (name : String) (text : String)
deriving DecidableEq, Repr

/-- Exception raised by ElasticBuffer when flushing — embedding of
elasticbatch.exceptions.ElasticBufferFlushError. -/
structure ElasticBufferFlushError where
  msg : String
  err : ErrCause
  verbose : Bool
deriving DecidableEq, Repr

/-- Embedding of ElasticBufferFlushError.__str__. -/
def ElasticBufferFlushError.render (e : ElasticBufferFlushError) : String :=
  if !e.verbose then
    e.msg
  else
    match e.err with
    | ErrCause.nil => e.msg
    | ErrCause.str s => e.msg ++ ": " ++ s
    | ErrCause.list l => e.msg ++ ": " ++ pyListStr l
    | ErrCause.exc m n t =>
      let errName :=
        match m with
        | some mod => mod ++ "." ++ n
        | none => n
      e.msg ++ ": " ++ errName ++ ": " ++ t

/-- Outcome of one call to the external bulk-insert transport:
either a raised ElasticsearchException (a transport fault, carrying module,
class name and text), or a normal return of a success count and a list of
per-document error descriptors. -/
inductive BulkOutcome where
  | fault (module : Option String) (name : String) (text : String)
  | ok (nSuccess : Int) (errs : List String)
deriving DecidableEq, Repr

/-- State of elasticbatch.buffer.ElasticBuffer (construction parameters and
the two mutable fields buffer and oldest timestamp). -/
structure ElasticBuffer (V : Type) where
  size : Int
  verbose_errs : Bool
  dump_dir : Option String
  metadata_funcs : List (String × (Doc V → V))
  buffer : List (Doc V)
  oldest : Option PyTime

/-- Embedding of __len__. -/
def ElasticBuffer.lenOp (b : ElasticBuffer V) : Nat := b.buffer.length

/-- Embedding of __enter__: returns the buffer itself. -/
def ElasticBuffer.enterOp (b : ElasticBuffer V) : ElasticBuffer V := b

/-- Embedding of _clear_buffer. -/
def ElasticBuffer.clear_buffer (b : ElasticBuffer V) : ElasticBuffer V :=
  { b with buffer := [], oldest := none }

/-- Result of a flush call: new state, raised error if any, and the number
of transport (bulk) calls made. -/
structure FlushResult (V : Type) where
  buf : ElasticBuffer V
  err : Option ElasticBufferFlushError
  transportCalls : Nat

/-- Embedding of ElasticBuffer.flush, parametrised by the outcome the
transport would produce if called. -/
def ElasticBuffer.flush (b : ElasticBuffer V) (tr : BulkOutcome) : FlushResult V :=
  if b.buffer.length = 0 then
    ⟨b, none, 0⟩
  else
    match tr with
    | BulkOutcome.fault m n t =>
      ⟨b, some ⟨"Error while bulk inserting buffer contents",
                ErrCause.exc m n t, b.verbose_errs⟩, 1⟩
    | BulkOutcome.ok nSuccess bulkErrs =>
      if bulkErrs.length ≠ 0 then
        ⟨b, some ⟨"Multiple bulk insertion errors",
                  ErrCause.list bulkErrs, b.verbose_errs⟩, 1⟩
      else if nSuccess ≠ (b.buffer.length : Int) then
        ⟨b, some ⟨"Failed to insert " ++ toString ((b.buffer.length : Int) - nSuccess) ++
                  " of " ++ toString b.buffer.length ++ " documents",
                  ErrCause.nil, b.verbose_errs⟩, 1⟩
      else
        ⟨b.clear_buffer, none, 1⟩

/-- Result of an add call: new state, raised flush error if any, number of
flush invocations, and number of transport calls. -/
structure AddResult (V : Type) where
  buf : ElasticBuffer V
  err : Option ElasticBufferFlushError
  flushCalls : Nat
  transportCalls : Nat

/-- Embedding of ElasticBuffer._add (the state-mutating core of add, taking
an already-normalized document list). -/
def ElasticBuffer.addRaw (b : ElasticBuffer V) (docs : List (Doc V)) (ts : PyTime)
    (tr : BulkOutcome) : AddResult V :=
  if docs.isEmpty then
    ⟨b, none, 0, 0⟩
  else
    let b1 := if b.buffer.length = 0 then { b with oldest := some ts } else b
    let b2 := { b1 with buffer := b1.buffer ++ docs }
    if (b2.buffer.length : Int) > b2.size then
      let fr := b2.flush tr
      ⟨fr.buf, fr.err, 1, fr.transportCalls⟩
    else
      ⟨b2, none, 0, 0⟩

/-- Python truthiness of the dump_dir attribute (None or a string). -/
def pyTruthyStr : Option String → Bool
  | none => false
  | some s => !s.isEmpty

/-- Embedding of ElasticBuffer._to_file: the lines of the written ndjson
file, in order; element i stands for the JSON serialization of document i
of the buffer. The file is created even when the buffer is empty. -/
def ElasticBuffer.to_file (b : ElasticBuffer V) : List (Doc V) := b.buffer

/-- Result of an exit call: new state, propagated flush error if any,
flush invocations, transport calls, and the contents of the dump file if
one was created. -/
structure ExitResult (V : Type) where
  buf : ElasticBuffer V
  err : Option ElasticBufferFlushError
  flushCalls : Nat
  transportCalls : Nat
  dumpFile : Option (List (Doc V))

/-- Embedding of ElasticBuffer.__exit__; the three booleans are the
truthiness of exc_type, exc_val and exc_tb (all true when an exception
propagates, all false otherwise). -/
def ElasticBuffer.exitOp (b : ElasticBuffer V) (excType excVal excTb : Bool)
    (tr : BulkOutcome) : ExitResult V :=
  let err_raised := excType || excVal || excTb
  if !err_raised then
    let fr := b.flush tr
    ⟨fr.buf, fr.err, 1, fr.transportCalls, none⟩
  else if pyTruthyStr b.dump_dir then
    ⟨b, none, 0, 0, some b.to_file⟩
  else
    ⟨b, none, 0, 0, none⟩

/-- Value returned by the elapsed-time computation: negative infinity or a
finite number. -/
inductive Elapsed where
  | negInf
  | val (q : ℚ)
deriving DecidableEq, Repr

/-- Message of the TypeError raised by _get_oldest_elapsed_time_from. -/
def elapsedTypeErrMsg : String :=
  "Cannot use non-float as numeric value for computing elapsed time"

/-- Embedding of ElasticBuffer._get_oldest_elapsed_time_from; the error
case models the raised TypeError. The buffer state is not mutated by the
source method, which the embedding reflects by not returning a state. -/
def ElasticBuffer.get_oldest_elapsed_time_from (b : ElasticBuffer V) (t : PyTime) :
    Except String Elapsed :=
  match b.oldest with
  | none => Except.ok Elapsed.negInf
  | some o =>
    match pySub t o with
    | some q => Except.ok (Elapsed.val q)
    | none => Except.error elapsedTypeErrMsg

/-- Pandas Series at its interface boundary: an optional column name, an
optional index name, the index values and the cell values. -/
structure PySeries (V : Type) where
  name : Option String
  idxName : Option String
  idx : List V
  vals : List V

/-- Pandas DataFrame at its interface boundary: column names, an optional
index name, the index values and the row values (one list per row). -/
structure PyFrame (V : Type) where
  cols : List String
  idxName : Option String
  idx : List V
  rows : List (List V)

/-- Pandas Series.to_frame: a one-column frame, the column named by the
series name or by the positional default key 0. -/
def PySeries.to_frame (s : PySeries V) : PyFrame V :=
  ⟨[s.name.getD "0"], s.idxName, s.idx, s.vals.map (fun v => [v])⟩

/-- Pandas DataFrame.reset_index for a named index: the index becomes a
regular first column. -/
def PyFrame.reset_index (f : PyFrame V) : PyFrame V :=
  ⟨f.idxName.getD "" :: f.cols, none, f.idx, (f.idx.zip f.rows).map (fun p => p.1 :: p.2)⟩

/-- Pandas DataFrame.to_dict with records orientation: one document per
row, one field per column. -/
def PyFrame.to_records (f : PyFrame V) : List (Doc V) :=
  f.rows.map (fun r => f.cols.zip r)

/-- Input shapes a caller may pass to add (elasticbatch.types
DocumentBundle, extended with a tag for any other Python value). -/
inductive PyBundle (V : Type) where
  | list (docs : List (Doc V))
  | dict (d : Doc V)
  | series (s : PySeries V)
  | frame (f : PyFrame V)
  | other (tag : String)

/-- Error message of the reduced-shape ValueError raised when pandas is
unavailable. -/
def reducedShapesMsg : String := "Must pass one of [List, Dict]"

/-- Error message of the full-shape ValueError. -/
def fullShapesMsg : String :=
  "Must pass one of [List, Dict, pandas.Series, pandas.DataFrame]"

/-- Embedding of ElasticBuffer._ensure_list; noPandas is the module-level
no_pandas flag of elasticbatch.types. Raised ValueErrors are modelled as
Except.error of the message. -/
def ensure_list (noPandas : Bool) : PyBundle V → Except String (List (Doc V))
  | PyBundle.list l => Except.ok l
  | PyBundle.dict d => Except.ok [d]
  | PyBundle.series s =>
    if noPandas then Except.error reducedShapesMsg
    else
      let f := s.to_frame
      Except.ok (if f.idxName.isSome then f.reset_index.to_records else f.to_records)
  | PyBundle.frame f =>
    if noPandas then Except.error reducedShapesMsg
    else Except.ok (if f.idxName.isSome then f.reset_index.to_records else f.to_records)
  | PyBundle.other _ =>
    if noPandas then Except.error reducedShapesMsg
    else Except.error fullShapesMsg

/-- Python d[k]-style lookup on an association-list document. -/
def getKey (k : String) : Doc V → Option V
  | [] => none
  | (k2, v) :: rest => if k2 = k then some v else getKey k rest

/-- Python dict assignment d[k] = v: replaces the value of an existing key
in place, otherwise appends the new pair. -/
def setKey (d : Doc V) (k : String) (v : V) : Doc V :=
  match d with
  | [] => [(k, v)]
  | (k2, v2) :: rest => if k2 = k then (k2, v) :: rest else (k2, v2) :: setKey rest k v

/-- Python dict.update: assigns every pair of the update in order. -/
def dictUpdate (d : Doc V) : List (String × V) → Doc V
  | [] => d
  | (k, v) :: rest => dictUpdate (setKey d k v) rest

/-- Embedding of ElasticBuffer._apply_metadata_funcs: for each document,
the comprehension evaluates every metadata function on the document as it
stands before the update, then merges all results in a single update. -/
def apply_metadata_funcs (funcs : List (String × (Doc V → V))) (docs : List (Doc V)) :
    List (Doc V) :=
  if funcs.isEmpty then docs
  else docs.map (fun doc => dictUpdate doc (funcs.map (fun fg => (fg.1, fg.2 doc))))

/-- Embedding of ElasticBuffer.add: normalize, apply metadata functions,
default the timestamp to the current wall-clock time, then run the core
_add. A normalization failure propagates before any state change. -/
def ElasticBuffer.add (b : ElasticBuffer V) (noPandas : Bool) (docs : PyBundle V)
    (ts : Option PyTime) (now : PyTime) (tr : BulkOutcome) :
    Except String (AddResult V) :=
  match ensure_list noPandas docs with
  | Except.error e => Except.error e
  | Except.ok ds =>
    Except.ok (b.addRaw (apply_metadata_funcs b.metadata_funcs ds) (ts.getD now) tr)

/-- Run a sequence of core add calls, accumulating the numbers of flush
invocations and transport calls. -/
def runAdds (b : ElasticBuffer V) :
    List (List (Doc V) × PyTime × BulkOutcome) → ElasticBuffer V × Nat × Nat
  | [] => (b, 0, 0)
  | c :: rest =>
    let r := b.addRaw c.1 c.2.1 c.2.2
    let k := runAdds r.buf rest
    (k.1, r.flushCalls + k.2.1, r.transportCalls + k.2.2)

/-- Buffer states reachable from a freshly constructed buffer through the
mutating operations (add, flush, exit); len, oldestElapsedTime and enter
do not mutate state. -/
inductive Reachable : ElasticBuffer V → Prop where
  | init (size : Int) (verbose : Bool) (dd : Option String)
      (funcs : List (String × (Doc V → V))) :
      Reachable ⟨size, verbose, dd, funcs, [], none⟩
  | addStep (b : ElasticBuffer V) (docs : List (Doc V)) (ts : PyTime) (tr : BulkOutcome) :
      Reachable b → Reachable (b.addRaw docs ts tr).buf
  | flushStep (b : ElasticBuffer V) (tr : BulkOutcome) :
      Reachable b → Reachable (b.flush tr).buf
  | exitStep (b : ElasticBuffer V) (t v tb : Bool) (tr : BulkOutcome) :
      Reachable b → Reachable (b.exitOp t v tb tr).buf

/-- Full success of a transport call against n pending documents: no fault,
no per-document errors, success count equal to n. -/
def fullSuccess (tr : BulkOutcome) (n : Nat) : Prop :=
  ∃ k, tr = BulkOutcome.ok k [] ∧ k = (n : Int)

/-- The three failure conditions of the flush contract against n pending
documents: a transport fault, a non-empty per-document error list, or a
success count smaller than n. -/
def flushFailCond (tr : BulkOutcome) (n : Nat) : Prop :=
  (∃ m nm t, tr = BulkOutcome.fault m nm t) ∨
  (∃ k errs, tr = BulkOutcome.ok k errs ∧ errs ≠ []) ∨
  (∃ k errs, tr = BulkOutcome.ok k errs ∧ k < (n : Int))

/-- Whether a bundle is a Python list or dict (the shapes accepted without
pandas). -/
def PyBundle.isListOrDict : PyBundle V → Bool
  | PyBundle.list _ => true
  | PyBundle.dict _ => true
  | _ => false

/-- Total number of normalized records over a sequence of add calls. -/
def totalDocs (calls : List (List (Doc V) × PyTime × BulkOutcome)) : Nat :=
  (calls.map (fun c => c.1.length)).sum

end ElasticBatchModel

/-- Freshly constructed buffer over Int-valued documents, for concrete
evaluation. -/
def bufInit : ElasticBuffer Int :=
  ⟨5, true, none, [], [], none⟩

/-- Buffer holding one document, for concrete evaluation. -/
def bufOne : ElasticBuffer Int :=
  ⟨5, true, none, [], [[("a", 1)]], some (PyTime.num 100)⟩

/-- C9: rendering of a FlushError is the message alone when verbosity is
disabled (for every cause, None included); with verbosity enabled and a
cause present, the message followed by a colon-space and either the
literal text of a string or list cause, or the fully-qualified kind name,
colon-space, and description of a structured fault cause. -/
theorem flushError_render_contract (e : ElasticBufferFlushError) :
    (e.verbose = false → e.render = e.msg) ∧
    (e.verbose = true → e.err = ErrCause.nil → e.render = e.msg) ∧
    (∀ s, e.verbose = true → e.err = ErrCause.str s →
      e.render = e.msg ++ ": " ++ s) ∧
    (∀ l, e.verbose = true → e.err = ErrCause.list l →
      e.render = e.msg ++ ": " ++ pyListStr l) ∧
    (∀ m n t, e.verbose = true → e.err = ErrCause.exc (some m) n t →
      e.render = e.msg ++ ": " ++ (m ++ "." ++ n) ++ ": " ++ t) := by
  obtain ⟨msg, err, verbose⟩ := e
  refine ⟨?_, ?_, ?_, ?_, ?_⟩
  · rintro rfl
    cases err <;> rfl
  · rintro rfl rfl
    rfl
  · rintro s rfl rfl
    rfl
  · rintro l rfl rfl
    rfl
  · rintro m n t rfl rfl
    rfl

/-- Witness for C9 at a concrete error value. -/
theorem flushError_render_witness :
    ElasticBufferFlushError.render ⟨"boom", ErrCause.str "cause", true⟩ = "boom: cause" ∧
    ElasticBufferFlushError.render ⟨"boom", ErrCause.exc (some "mod") "Err" "det", false⟩
      = "boom" := by
  constructor
  · exact (flushError_render_contract ⟨"boom", ErrCause.str "cause", true⟩).2.2.1
      "cause" rfl rfl
  · exact (flushError_render_contract ⟨"boom", ErrCause.exc (some "mod") "Err" "det", false⟩).1
      rfl

/-- C8: the normalizer maps a dict to a one-element list, passes a list
through unchanged, fails on any other shape with the ValueError naming the
acceptable shapes, and in no-pandas mode accepts only lists and dicts,
failing on everything else with the reduced-shape ValueError. -/
theorem ensure_list_contract {V : Type} :
    (∀ (np : Bool) (d : Doc V), ensure_list np (PyBundle.dict d) = Except.ok [d]) ∧
    (∀ (np : Bool) (l : List (Doc V)), ensure_list np (PyBundle.list l) = Except.ok l) ∧
    (∀ tag, ensure_list false (PyBundle.other tag : PyBundle V)
      = Except.error fullShapesMsg) ∧
    (∀ bundle : PyBundle V, bundle.isListOrDict = false →
      ensure_list true bundle = Except.error reducedShapesMsg) := by
  refine ⟨fun np d => rfl, fun np l => rfl, fun tag => rfl, ?_⟩
  intro bundle h
  cases bundle with
  | list l => simp [PyBundle.isListOrDict] at h
  | dict d => simp [PyBundle.isListOrDict] at h
  | series s => rfl
  | frame f => rfl
  | other tag => rfl

/-- Witness for C8 at concrete bundles. -/
theorem ensure_list_witness :
    ensure_list false (PyBundle.dict [("a", (1 : Int))]) = Except.ok [[("a", 1)]] ∧
    ensure_list true (PyBundle.other "int" : PyBundle Int)
      = Except.error reducedShapesMsg := by
  constructor
  · exact ensure_list_contract.1 false [("a", 1)]
  · exact ensure_list_contract.2.2.2 (PyBundle.other "int") rfl

/-- C7 counterexample: on an empty buffer the elapsed-time computation
returns negative infinity even for a non-numeric reference timestamp,
instead of raising the TypeError the claim requires for every non-numeric
reference. -/
theorem elapsed_claim_counterexample :
    bufInit.get_oldest_elapsed_time_from (PyTime.obj "str") = Except.ok Elapsed.negInf :=
  rfl

/-- C7 amended: the elapsed-time computation returns the difference for a
numeric reference when the oldest timestamp is set, returns negative
infinity whenever the oldest timestamp is unset (even for a non-numeric
reference), and raises the TypeError only when the oldest timestamp is set
and the subtraction is not between numerics; no state is mutated. -/
theorem elapsed_contract {V : Type} (b : ElasticBuffer V) (t : PyTime) :
    (b.oldest = none → b.get_oldest_elapsed_time_from t = Except.ok Elapsed.negInf) ∧
    (∀ oq tq, b.oldest = some (PyTime.num oq) → t = PyTime.num tq →
      b.get_oldest_elapsed_time_from t = Except.ok (Elapsed.val (tq - oq))) ∧
    (∀ o, b.oldest = some o → pySub t o = none →
      b.get_oldest_elapsed_time_from t = Except.error elapsedTypeErrMsg) := by
  refine ⟨?_, ?_, ?_⟩
  · intro h
    simp [ElasticBuffer.get_oldest_elapsed_time_from, h]
  · rintro oq tq h rfl
    simp [ElasticBuffer.get_oldest_elapsed_time_from, h, pySub]
  · intro o h hsub
    simp [ElasticBuffer.get_oldest_elapsed_time_from, h, hsub]

/-- Witness for C7 at the numeric example of the spec: oldest timestamp
100.41 queried at reference time 123.45 yields 23.04. -/
theorem elapsed_contract_witness :
    ElasticBuffer.get_oldest_elapsed_time_from
      (⟨5, true, none, [], [[("a", 1)]], some (PyTime.num (10041 / 100))⟩ : ElasticBuffer Int)
      (PyTime.num (12345 / 100)) = Except.ok (Elapsed.val (2304 / 100)) := by
  have h := (elapsed_contract
    (⟨5, true, none, [], [[("a", 1)]], some (PyTime.num (10041 / 100))⟩ : ElasticBuffer Int)
    (PyTime.num (12345 / 100))).2.1 (10041 / 100) (12345 / 100) rfl rfl
  rw [h]
  norm_num

/-- C1: flush on an empty buffer is a no-op with no transport call; on a
non-empty buffer, full transport success clears pending and unsets the
oldest timestamp, and any of the three failure conditions raises a
FlushError and leaves the whole buffer state exactly as before. -/
theorem flush_contract {V : Type} (b : ElasticBuffer V) (tr : BulkOutcome) :
    (b.buffer = [] → b.flush tr = ⟨b, none, 0⟩) ∧
    (b.buffer ≠ [] → fullSuccess tr b.buffer.length →
      (b.flush tr).buf.buffer = [] ∧ (b.flush tr).buf.oldest = none ∧
      (b.flush tr).err = none) ∧
    (b.buffer ≠ [] → flushFailCond tr b.buffer.length →
      (b.flush tr).err ≠ none ∧ (b.flush tr).buf = b) := by
  refine ⟨?_, ?_, ?_⟩
  · intro h
    simp [ElasticBuffer.flush, h]
  · rintro hne ⟨k, rfl, hk⟩
    have hlen : b.buffer.length ≠ 0 := fun h0 => hne (List.length_eq_zero.mp h0)
    simp [ElasticBuffer.flush, hlen, hk, ElasticBuffer.clear_buffer]
  · intro hne hfail
    have hlen : b.buffer.length ≠ 0 := fun h0 => hne (List.length_eq_zero.mp h0)
    rcases hfail with ⟨m, nm, t, rfl⟩ | ⟨k, errs, rfl, herrs⟩ | ⟨k, errs, rfl, hk⟩
    · simp [ElasticBuffer.flush, hlen]
    · have herrlen : errs.length ≠ 0 := fun h0 => herrs (List.length_eq_zero.mp h0)
      simp [ElasticBuffer.flush, hlen, herrlen]
    · by_cases herrs : errs.length ≠ 0
      · simp [ElasticBuffer.flush, hlen, herrs]
      · have hk2 : k ≠ (b.buffer.length : Int) := ne_of_lt hk
        simp [ElasticBuffer.flush, hlen, herrs, hk2]

/-- Witness for C1 at concrete buffers and transport outcomes. -/
theorem flush_contract_witness :
    bufInit.flush (BulkOutcome.ok 0 []) = ⟨bufInit, none, 0⟩ ∧
    (bufOne.flush (BulkOutcome.ok 1 [])).buf.buffer = [] ∧
    (bufOne.flush (BulkOutcome.fault none "ElasticsearchException" "down")).buf = bufOne := by
  refine ⟨?_, ?_, ?_⟩
  · exact (flush_contract bufInit (BulkOutcome.ok 0 [])).1 rfl
  · exact ((flush_contract bufOne (BulkOutcome.ok 1 [])).2.1 (by simp [bufOne])
      ⟨1, rfl, by simp [bufOne]⟩).1
  · exact ((flush_contract bufOne
      (BulkOutcome.fault none "ElasticsearchException" "down")).2.2 (by simp [bufOne])
      (Or.inl ⟨none, "ElasticsearchException", "down", rfl⟩)).2

/-- C3 counterexample: with one pending document, no transport fault and
no per-document errors, a reported success count of 2 (which is greater
than or equal to the pending length 1) makes flush raise a FlushError and
keep the buffer, while the claim requires it to succeed and clear. -/
theorem flush_success_count_counterexample :
    (2 : Int) ≥ (bufOne.buffer.length : Int) ∧
    (bufOne.flush (BulkOutcome.ok 2 [])).err ≠ none ∧
    (bufOne.flush (BulkOutcome.ok 2 [])).buf.buffer = bufOne.buffer := by
  refine ⟨by norm_num [bufOne], ?_, rfl⟩
  intro h
  simp [bufOne, ElasticBuffer.flush] at h

/-- C3 amended: when the transport neither faults nor reports per-document
errors, flush raises the success-count FlushError if and only if the
reported success count differs from the pending length (in either
direction); when it equals the pending length, flush succeeds and clears
the buffer. -/
theorem flush_success_count_ne {V : Type} (b : ElasticBuffer V) (n : Int)
    (h : b.buffer ≠ []) :
    ((b.flush (BulkOutcome.ok n [])).err = none ↔ n = (b.buffer.length : Int)) ∧
    (n = (b.buffer.length : Int) →
      (b.flush (BulkOutcome.ok n [])).buf = b.clear_buffer) ∧
    (n ≠ (b.buffer.length : Int) → (b.flush (BulkOutcome.ok n [])).buf = b) := by
  have hlen : b.buffer.length ≠ 0 := fun h0 => h (List.length_eq_zero.mp h0)
  by_cases hn : n = (b.buffer.length : Int)
  · refine ⟨?_, fun _ => ?_, fun hne => absurd hn hne⟩
    · simp [ElasticBuffer.flush, hlen, hn]
    · simp [ElasticBuffer.flush, hlen, hn]
  · refine ⟨?_, fun he => absurd he hn, fun _ => ?_⟩
    · simp [ElasticBuffer.flush, hlen, hn]
    · simp [ElasticBuffer.flush, hlen, hn]

/-- Witness for C3 amended at a concrete buffer. -/
theorem flush_success_count_ne_witness :
    ((bufOne.flush (BulkOutcome.ok 1 [])).err = none ↔ (1 : Int) = (bufOne.buffer.length : Int)) ∧
    (bufOne.flush (BulkOutcome.ok 1 [])).buf = bufOne.clear_buffer := by
  have h := flush_success_count_ne bufOne 1 (by simp [bufOne])
  exact ⟨h.1, h.2.1 (by simp [bufOne])⟩

/-- C4: scoped exit without a propagating exception invokes flush exactly
once (even on an empty buffer), propagating its error and adopting its
resulting state; scoped exit with a propagating exception never invokes
flush and makes no transport call. -/
theorem exit_flush_contract {V : Type} (b : ElasticBuffer V) (t v tb : Bool)
    (tr : BulkOutcome) :
    ((t || v || tb) = false →
      (b.exitOp t v tb tr).flushCalls = 1 ∧
      (b.exitOp t v tb tr).err = (b.flush tr).err ∧
      (b.exitOp t v tb tr).buf = (b.flush tr).buf) ∧
    ((t || v || tb) = true →
      (b.exitOp t v tb tr).flushCalls = 0 ∧
      (b.exitOp t v tb tr).transportCalls = 0 ∧
      (b.exitOp t v tb tr).buf = b) := by
  constructor
  · intro h
    simp [ElasticBuffer.exitOp, h]
  · intro h
    by_cases hd : pyTruthyStr b.dump_dir
    · simp [ElasticBuffer.exitOp, h, hd]
    · simp [ElasticBuffer.exitOp, h, hd]

/-- Witness for C4 at concrete buffers: a clean exit on an empty buffer
still flushes once; a faulted exit does not flush. -/
theorem exit_flush_contract_witness :
    (bufInit.exitOp false false false (BulkOutcome.ok 0 [])).flushCalls = 1 ∧
    (bufOne.exitOp true true true (BulkOutcome.ok 1 [])).flushCalls = 0 := by
  constructor
  · exact ((exit_flush_contract bufInit false false false (BulkOutcome.ok 0 [])).1 rfl).1
  · exact ((exit_flush_contract bufOne true true true (BulkOutcome.ok 1 [])).2 rfl).1

/-- Buffer with a configured dump directory and empty pending, for
concrete evaluation. -/
def bufDump : ElasticBuffer Int :=
  ⟨5, true, some "dumps", [], [], none⟩

/-- C5 counterexample: with a dump directory configured and pending empty,
scoped exit with a propagating exception still creates a dump file (an
empty one), while the claim requires the dump to be skipped with no file
created. -/
theorem exit_dump_counterexample :
    (bufDump.exitOp true true true (BulkOutcome.ok 0 [])).dumpFile = some [] := rfl

/-- C5 amended: on scoped exit with a propagating exception, a dump of
pending to the configured directory, one document per line in buffer
order, is performed if and only if a dump directory was configured; when
pending is empty the dump still happens and produces an empty file. -/
theorem exit_dump_contract {V : Type} (b : ElasticBuffer V) (t v tb : Bool)
    (tr : BulkOutcome) (h : (t || v || tb) = true) :
    (pyTruthyStr b.dump_dir = true →
      (b.exitOp t v tb tr).dumpFile = some b.buffer) ∧
    (pyTruthyStr b.dump_dir = false →
      (b.exitOp t v tb tr).dumpFile = none) := by
  constructor
  · intro hd
    simp [ElasticBuffer.exitOp, h, hd, ElasticBuffer.to_file]
  · intro hd
    simp [ElasticBuffer.exitOp, h, hd]

/-- Witness for C5 amended at concrete buffers. -/
theorem exit_dump_contract_witness :
    ({ bufDump with buffer := [[("a", 1)]] }.exitOp true true true
        (BulkOutcome.ok 0 [])).dumpFile = some [[("a", 1)]] ∧
    (bufOne.exitOp true true true (BulkOutcome.ok 0 [])).dumpFile = none := by
  constructor
  · exact (exit_dump_contract { bufDump with buffer := [[("a", 1)]] } true true true
      (BulkOutcome.ok 0 []) rfl).1 rfl
  · exact (exit_dump_contract bufOne true true true (BulkOutcome.ok 0 []) rfl).2 rfl

/-- Flush never changes the capacity field. -/
theorem flush_buf_size {V : Type} (b : ElasticBuffer V) (tr : BulkOutcome) :
    (b.flush tr).buf.size = b.size := by
  unfold ElasticBuffer.flush
  split
  · rfl
  · cases tr with
    | fault m n t => rfl
    | ok k errs =>
      dsimp only
      split
      · rfl
      · split
        · rfl
        · rfl

/-- A core add that stays within capacity appends the documents, makes no
flush invocation and no transport call, and keeps the capacity field. -/
theorem addRaw_small {V : Type} (b : ElasticBuffer V) (docs : List (Doc V))
    (ts : PyTime) (tr : BulkOutcome)
    (h : ((b.buffer.length + docs.length : Nat) : Int) ≤ b.size) :
    (b.addRaw docs ts tr).buf.buffer = b.buffer ++ docs ∧
    (b.addRaw docs ts tr).flushCalls = 0 ∧
    (b.addRaw docs ts tr).transportCalls = 0 ∧
    (b.addRaw docs ts tr).buf.size = b.size := by
  cases docs with
  | nil => simp [ElasticBuffer.addRaw]
  | cons d ds =>
    have hle : ¬ ((b.buffer.length + (d :: ds).length : Nat) : Int) > b.size :=
      not_lt.mpr h
    by_cases h0 : b.buffer.length = 0
    · have hle2 : ¬ b.size < (ds.length : Int) + 1 := by
        push_cast [List.length_cons] at hle
        omega
      simp [ElasticBuffer.addRaw, h0, List.length_append, hle2]
    · have hle3 : ¬ b.size < (b.buffer.length : Int) + ((ds.length : Int) + 1) := by
        push_cast [List.length_cons] at hle
        omega
      simp [ElasticBuffer.addRaw, h0, List.length_append, hle3]

/-- Running a sequence of core adds whose total stays within capacity
appends everything, with no flush invocation and no transport call. -/
theorem runAdds_within {V : Type} (calls : List (List (Doc V) × PyTime × BulkOutcome)) :
    ∀ b : ElasticBuffer V,
    ((b.buffer.length + totalDocs calls : Nat) : Int) ≤ b.size →
    (runAdds b calls).1.buffer.length = b.buffer.length + totalDocs calls ∧
    (runAdds b calls).2.1 = 0 ∧ (runAdds b calls).2.2 = 0 ∧
    (runAdds b calls).1.size = b.size := by
  induction calls with
  | nil =>
    intro b h
    simp [runAdds, totalDocs]
  | cons c rest ih =>
    intro b h
    have htot : totalDocs (c :: rest) = c.1.length + totalDocs rest := by
      simp [totalDocs]
    have h2 : (b.buffer.length : Int) + (c.1.length : Int) + (totalDocs rest : Int)
        ≤ b.size := by
      rw [htot] at h
      push_cast at h
      omega
    have hsmall : ((b.buffer.length + c.1.length : Nat) : Int) ≤ b.size := by
      push_cast
      omega
    obtain ⟨hb, hf, ht, hs⟩ := addRaw_small b c.1 c.2.1 c.2.2 hsmall
    have hlen : (b.addRaw c.1 c.2.1 c.2.2).buf.buffer.length
        = b.buffer.length + c.1.length := by
      rw [hb, List.length_append]
    have hrest : (((b.addRaw c.1 c.2.1 c.2.2).buf.buffer.length + totalDocs rest : Nat) : Int)
        ≤ (b.addRaw c.1 c.2.1 c.2.2).buf.size := by
      rw [hlen, hs]
      push_cast
      omega
    obtain ⟨ih1, ih2, ih3, ih4⟩ := ih (b.addRaw c.1 c.2.1 c.2.2).buf hrest
    refine ⟨?_, ?_, ?_, ?_⟩
    · simp only [runAdds]
      rw [ih1, hlen, htot]
      omega
    · simp only [runAdds]
      omega
    · simp only [runAdds]
      omega
    · simp only [runAdds]
      rw [ih4, hs]

/-- State invariant of the buffer: the oldest timestamp is unset if and
only if pending is empty. -/
def BufInv {V : Type} (b : ElasticBuffer V) : Prop :=
  b.oldest = none ↔ b.buffer = []

/-- Flush either leaves the state untouched (failure or empty buffer) or
clears it (success). -/
theorem flush_buf_dichotomy {V : Type} (c : ElasticBuffer V) (tr : BulkOutcome) :
    (c.flush tr).buf = c ∨ (c.flush tr).buf = c.clear_buffer := by
  unfold ElasticBuffer.flush
  split
  · left
    rfl
  · cases tr with
    | fault m n t =>
      left
      rfl
    | ok k errs =>
      dsimp only
      split
      · left
        rfl
      · split
        · left
          rfl
        · right
          rfl

/-- Flush preserves the buffer invariant. -/
theorem flush_inv {V : Type} (b : ElasticBuffer V) (tr : BulkOutcome)
    (h : BufInv b) : BufInv (b.flush tr).buf := by
  rcases flush_buf_dichotomy b tr with hc | hc
  · rw [hc]
    exact h
  · rw [hc]
    exact ⟨fun _ => rfl, fun _ => rfl⟩

/-- Characterization of a core add of a non-empty document list: the
appended state has the documents appended, the oldest timestamp set on a
previously empty buffer and kept otherwise, and the final state is either
that appended state or (after a successful triggered flush) its cleared
version. -/
theorem addRaw_buf_char {V : Type} (b : ElasticBuffer V) (d : Doc V) (ds : List (Doc V))
    (ts : PyTime) (tr : BulkOutcome) :
    ∃ b2 : ElasticBuffer V,
      b2.buffer = b.buffer ++ d :: ds ∧
      b2.oldest = (if b.buffer.length = 0 then some ts else b.oldest) ∧
      b2.size = b.size ∧
      ((b.addRaw (d :: ds) ts tr).buf = b2 ∨
        (b.addRaw (d :: ds) ts tr).buf = b2.clear_buffer) := by
  by_cases h0 : b.buffer.length = 0
  · refine ⟨{ b with buffer := b.buffer ++ d :: ds, oldest := some ts }, rfl,
      by rw [if_pos h0], rfl, ?_⟩
    unfold ElasticBuffer.addRaw
    dsimp only
    rw [if_neg (by simp), if_pos h0]
    split
    · exact flush_buf_dichotomy _ tr
    · left
      rfl
  · refine ⟨{ b with buffer := b.buffer ++ d :: ds }, rfl,
      by rw [if_neg h0], rfl, ?_⟩
    unfold ElasticBuffer.addRaw
    dsimp only
    rw [if_neg (by simp), if_neg h0]
    split
    · exact flush_buf_dichotomy _ tr
    · left
      rfl

/-- A core add preserves the buffer invariant. -/
theorem addRaw_inv {V : Type} (b : ElasticBuffer V) (docs : List (Doc V)) (ts : PyTime)
    (tr : BulkOutcome) (h : BufInv b) : BufInv (b.addRaw docs ts tr).buf := by
  cases docs with
  | nil => simpa [ElasticBuffer.addRaw] using h
  | cons d ds =>
    obtain ⟨b2, hbuf, hold, _, hc | hc⟩ := addRaw_buf_char b d ds ts tr
    · rw [hc]
      have hne : b2.buffer ≠ [] := by
        rw [hbuf]
        simp
      have hno : b2.oldest ≠ none := by
        rw [hold]
        split
        · simp
        · intro hn
          rename_i h0
          exact h0 (by rw [List.length_eq_zero]; exact h.mp hn)
      exact ⟨fun hn => absurd hn hno, fun hb => absurd hb hne⟩
    · rw [hc]
      exact ⟨fun _ => rfl, fun _ => rfl⟩

/-- Scoped exit preserves the buffer invariant. -/
theorem exit_inv {V : Type} (b : ElasticBuffer V) (t v tb : Bool) (tr : BulkOutcome)
    (h : BufInv b) : BufInv (b.exitOp t v tb tr).buf := by
  unfold ElasticBuffer.exitOp
  dsimp only
  split
  · exact flush_inv b tr h
  · split
    · exact h
    · exact h

/-- C6: on every reachable buffer state the oldest timestamp is unset if
and only if pending is empty; a core add on an empty buffer records the
call timestamp as the oldest timestamp (as long as the buffer stays
non-empty), and a core add on a non-empty buffer keeps the previously
recorded oldest timestamp regardless of its own timestamp argument. The
invariant is preserved by every mutating operation (add, flush, exit);
len, oldestElapsedTime and enter do not change state. -/
theorem oldest_timestamp_invariant {V : Type} (b : ElasticBuffer V) (h : Reachable b) :
    BufInv b ∧
    (∀ (docs : List (Doc V)) (ts : PyTime) (tr : BulkOutcome),
      b.buffer = [] → (b.addRaw docs ts tr).buf.buffer ≠ [] →
      (b.addRaw docs ts tr).buf.oldest = some ts) ∧
    (∀ (docs : List (Doc V)) (ts : PyTime) (tr : BulkOutcome),
      b.buffer ≠ [] → (b.addRaw docs ts tr).buf.buffer ≠ [] →
      (b.addRaw docs ts tr).buf.oldest = b.oldest) := by
  refine ⟨?_, ?_, ?_⟩
  · induction h with
    | init size verbose dd funcs => exact ⟨fun _ => rfl, fun _ => rfl⟩
    | addStep b docs ts tr hr ih => exact addRaw_inv b docs ts tr ih
    | flushStep b tr hr ih => exact flush_inv b tr ih
    | exitStep b t v tb tr hr ih => exact exit_inv b t v tb tr ih
  · intro docs ts tr hemp hres
    cases docs with
    | nil =>
      rw [show (b.addRaw [] ts tr) = ⟨b, none, 0, 0⟩ from rfl] at hres
      exact absurd hemp hres
    | cons d ds =>
      have h0 : b.buffer.length = 0 := by
        rw [hemp]
        rfl
      obtain ⟨b2, hbuf, hold, _, hc | hc⟩ := addRaw_buf_char b d ds ts tr
      · rw [hc, hold, if_pos h0]
      · rw [hc] at hres
        exact absurd rfl hres
  · intro docs ts tr hne hres
    cases docs with
    | nil => rfl
    | cons d ds =>
      have h0 : b.buffer.length ≠ 0 := fun hz => hne (List.length_eq_zero.mp hz)
      obtain ⟨b2, hbuf, hold, _, hc | hc⟩ := addRaw_buf_char b d ds ts tr
      · rw [hc, hold, if_neg h0]
      · rw [hc] at hres
        exact absurd rfl hres

/-- Witness for C6 at a concrete reachable state: one record added to a
fresh buffer at timestamp 5 leaves that timestamp recorded. -/
theorem oldest_timestamp_invariant_witness :
    (bufInit.addRaw [[("a", 1)]] (PyTime.num 5) (BulkOutcome.ok 0 [])).buf.oldest
      = some (PyTime.num 5) := by
  have h := oldest_timestamp_invariant bufInit (Reachable.init 5 true none [])
  exact h.2.1 [[("a", 1)]] (PyTime.num 5) (BulkOutcome.ok 0 []) rfl (by decide)

/-- C2: starting from an empty buffer, a sequence of add calls whose
normalized records total at most the capacity leaves exactly those records
pending with no flush invocation and no transport call; a single add whose
appended records bring the pending length strictly above the capacity
invokes flush exactly once before returning, while an add that reaches at
most the capacity (equality included) invokes no flush. -/
theorem add_capacity_contract {V : Type} :
    (∀ (b : ElasticBuffer V) (calls : List (List (Doc V) × PyTime × BulkOutcome)),
      b.buffer = [] → ((totalDocs calls : Nat) : Int) ≤ b.size →
      (runAdds b calls).1.buffer.length = totalDocs calls ∧
      (runAdds b calls).2.1 = 0 ∧ (runAdds b calls).2.2 = 0) ∧
    (∀ (b : ElasticBuffer V) (docs : List (Doc V)) (ts : PyTime) (tr : BulkOutcome),
      docs ≠ [] → ((b.buffer.length + docs.length : Nat) : Int) > b.size →
      (b.addRaw docs ts tr).flushCalls = 1) ∧
    (∀ (b : ElasticBuffer V) (docs : List (Doc V)) (ts : PyTime) (tr : BulkOutcome),
      ((b.buffer.length + docs.length : Nat) : Int) ≤ b.size →
      (b.addRaw docs ts tr).flushCalls = 0 ∧
      (b.addRaw docs ts tr).transportCalls = 0) := by
  refine ⟨?_, ?_, ?_⟩
  · intro b calls hb h
    have h2 : ((b.buffer.length + totalDocs calls : Nat) : Int) ≤ b.size := by
      rw [hb]
      simpa using h
    obtain ⟨h1, hf, ht, _⟩ := runAdds_within calls b h2
    rw [hb] at h1
    exact ⟨by simpa using h1, hf, ht⟩
  · intro b docs ts tr hne hgt
    cases docs with
    | nil => exact absurd rfl hne
    | cons d ds =>
      by_cases h0 : b.buffer.length = 0
      · simp [ElasticBuffer.addRaw, h0, List.length_append] at hgt ⊢
        simp [hgt]
      · simp [ElasticBuffer.addRaw, h0, List.length_append] at hgt ⊢
        simp [hgt]
  · intro b docs ts tr h
    obtain ⟨_, hf, ht, _⟩ := addRaw_small b docs ts tr h
    exact ⟨hf, ht⟩

/-- Witness for C2 at concrete inputs: three adds totalling five records
into a capacity-five buffer flush nothing; a sixth record triggers exactly
one flush. -/
theorem add_capacity_contract_witness :
    ((runAdds bufInit
      [([[("a", 1)], [("b", 2)]], PyTime.num 1, BulkOutcome.ok 0 []),
       ([[("c", 3)]], PyTime.num 2, BulkOutcome.ok 0 []),
       ([[("d", 4)], [("e", 5)]], PyTime.num 3, BulkOutcome.ok 0 [])]).1.buffer.length = 5 ∧
      (runAdds bufInit
      [([[("a", 1)], [("b", 2)]], PyTime.num 1, BulkOutcome.ok 0 []),
       ([[("c", 3)]], PyTime.num 2, BulkOutcome.ok 0 []),
       ([[("d", 4)], [("e", 5)]], PyTime.num 3, BulkOutcome.ok 0 [])]).2.2 = 0) ∧
    (bufOne.addRaw [[("b", 2)], [("c", 3)], [("d", 4)], [("e", 5)], [("f", 6)]]
      (PyTime.num 7) (BulkOutcome.ok 6 [])).flushCalls = 1 := by
  constructor
  · have h := add_capacity_contract.1 bufInit
      [([[("a", 1)], [("b", 2)]], PyTime.num 1, BulkOutcome.ok 0 []),
       ([[("c", 3)]], PyTime.num 2, BulkOutcome.ok 0 []),
       ([[("d", 4)], [("e", 5)]], PyTime.num 3, BulkOutcome.ok 0 [])]
      rfl (by norm_num [totalDocs, bufInit])
    refine ⟨?_, h.2.2⟩
    rw [h.1]
    norm_num [totalDocs]
  · exact add_capacity_contract.2.1 bufOne
      [[("b", 2)], [("c", 3)], [("d", 4)], [("e", 5)], [("f", 6)]]
      (PyTime.num 7) (BulkOutcome.ok 6 []) (by simp) (by norm_num [bufOne])

/-- Looking up the key just assigned yields the assigned value. -/
theorem getKey_setKey_self {V : Type} (d : Doc V) (k : String) (v : V) :
    getKey k (setKey d k v) = some v := by
  induction d with
  | nil => simp [setKey, getKey]
  | cons p rest ih =>
    obtain ⟨k2, v2⟩ := p
    by_cases hk : k2 = k
    · simp [setKey, getKey, hk]
    · simp [setKey, getKey, hk, ih]

/-- Assigning one key leaves lookups of other keys unchanged. -/
theorem getKey_setKey_ne {V : Type} (d : Doc V) (k k2 : String) (v : V)
    (h : k ≠ k2) : getKey k (setKey d k2 v) = getKey k d := by
  induction d with
  | nil => simp [setKey, getKey, Ne.symm h]
  | cons p rest ih =>
    obtain ⟨k3, v3⟩ := p
    by_cases hk : k3 = k2
    · subst hk
      simp [setKey, getKey, Ne.symm h]
    · simp [setKey, getKey, hk, ih]

/-- An update containing no pair for a key leaves its lookup unchanged. -/
theorem getKey_dictUpdate_not_mem {V : Type} (upd : List (String × V)) :
    ∀ (d : Doc V) (f : String), f ∉ upd.map Prod.fst →
    getKey f (dictUpdate d upd) = getKey f d := by
  induction upd with
  | nil =>
    intro d f _
    rfl
  | cons p rest ih =>
    intro d f hf
    obtain ⟨k, v⟩ := p
    simp only [List.map_cons, List.mem_cons] at hf
    push_neg at hf
    rw [dictUpdate, ih (setKey d k v) f hf.2, getKey_setKey_ne d f k v hf.1]

/-- With pairwise-distinct update keys, the lookup of an updated key
yields its value from the update. -/
theorem getKey_dictUpdate_mem {V : Type} (upd : List (String × V)) :
    ∀ (d : Doc V) (f : String) (v : V), (upd.map Prod.fst).Nodup →
    (f, v) ∈ upd → getKey f (dictUpdate d upd) = some v := by
  induction upd with
  | nil =>
    intro d f v _ hmem
    simp at hmem
  | cons p rest ih =>
    intro d f v hnodup hmem
    obtain ⟨k, w⟩ := p
    simp only [List.map_cons, List.nodup_cons] at hnodup
    rcases List.mem_cons.mp hmem with heq | hrest
    · have h1 : f = k := congrArg Prod.fst heq
      have h2 : v = w := congrArg Prod.snd heq
      subst h1
      subst h2
      rw [dictUpdate, getKey_dictUpdate_not_mem rest (setKey d f v) f hnodup.1,
        getKey_setKey_self]
    · rw [dictUpdate]
      exact ih (setKey d k w) f v hnodup.2 hrest

/-- C10: applying the metadata hooks evaluates every hook against the
record as it stood before any hook result was merged: with the (distinct)
kwargs hook names, the i-th output document holds, under each hook name,
that hook applied to the i-th input document — no hook observes a field
produced by another hook (or by itself) in the same add call. -/
theorem metadata_funcs_snapshot {V : Type} (funcs : List (String × (Doc V → V)))
    (docs : List (Doc V)) (f : String) (g : Doc V → V) (i : Nat) (d : Doc V)
    (hnodup : (funcs.map Prod.fst).Nodup) (hmem : (f, g) ∈ funcs)
    (hd : docs.get? i = some d) :
    ∃ d2, (apply_metadata_funcs funcs docs).get? i = some d2 ∧
      getKey f d2 = some (g d) := by
  have hfne : funcs.isEmpty = false := by
    cases funcs with
    | nil => simp at hmem
    | cons p rest => rfl
  have happ : apply_metadata_funcs funcs docs
      = docs.map (fun doc => dictUpdate doc (funcs.map (fun fg => (fg.1, fg.2 doc)))) := by
    unfold apply_metadata_funcs
    rw [hfne]
    simp
  refine ⟨dictUpdate d (funcs.map (fun fg => (fg.1, fg.2 d))), ?_, ?_⟩
  · rw [happ, List.get?_map, hd]
    rfl
  · apply getKey_dictUpdate_mem
    · have hkeys : (funcs.map (fun fg => (fg.1, fg.2 d))).map Prod.fst
          = funcs.map Prod.fst := by
        rw [List.map_map]
        rfl
      rw [hkeys]
      exact hnodup
    · exact List.mem_map_of_mem (fun fg => (fg.1, fg.2 d)) hmem

/-- Metadata hook reading field b, for concrete evaluation. -/
def hookA : Doc Int → Int := fun d => (getKey "b" d).getD 0 + 1

/-- Metadata hook writing a constant, for concrete evaluation. -/
def hookB : Doc Int → Int := fun _ => 7

/-- Witness for C10: hook a reads the original value of field b (1), not
the 7 that hook b merges in the same call. -/
theorem metadata_funcs_snapshot_witness :
    ∃ d2, (apply_metadata_funcs [("a", hookA), ("b", hookB)]
        [[("b", (1 : Int))]]).get? 0 = some d2 ∧
      getKey "a" d2 = some 2 := by
  obtain ⟨d2, hg, hv⟩ := metadata_funcs_snapshot [("a", hookA), ("b", hookB)]
    [[("b", (1 : Int))]] "a" hookA 0 [("b", 1)] (by decide)
    (List.mem_cons_self _ _) rfl
  exact ⟨d2, hg, by rw [hv]; rfl⟩
